import Mathlib

/-!
Shallow embedding of `beltsander.py`, a declarative command-line test runner.

The embedding keeps the source's structure: `TestCondition`, `Test`,
`TestScript` become Lean structures; the per-test execution protocol
(`Test.execute`) and the script-level run protocol (`TestScript.execute`)
become pure functions.  The command executor is external to the engine
(it spawns a shell process), so the exit code and captured output of the
spawned command are parameters of `Test.execute`; the diagnostics the
engine prints via `print('FAILED:', ...)` are returned as a list of
strings.  The XML loader's condition parsing (`parse_xml_conditions`)
is embedded over a small model of element trees, with Python runtime
errors made explicit in an `Except`.
-/

/-- Python substring containment `needle in haystack` for `str`:
`True` iff `needle` occurs as a contiguous (case-sensitive) substring. -/
def strContains (haystack needle : String) : Bool :=
  decide (List.IsInfix needle.data haystack.data)

/-- `TestCondition`: one boolean predicate over a command's result.
`contains` and `return_code` both default to `None` in `__init__`;
the `return_code` setter stores an integer. -/
structure TestCondition where
  contains : Option String := none
  return_code : Option Int := none
  deriving Repr, DecidableEq

/-- `TestCondition.check_return_code`: `self.return_code == value`
(only reached when `return_code` is set, hence the `some` pattern). -/
def TestCondition.check_return_code (c : TestCondition) (value : Int) : Bool :=
  match c.return_code with
  | some r => r == value
  | none => false

/-- `TestCondition.check_contains`: `self.contains in value`
(only reached when `contains` is set, hence the `some` pattern). -/
def TestCondition.check_contains (c : TestCondition) (value : String) : Bool :=
  match c.contains with
  | some s => strContains value s
  | none => false

/-- `TestCondition.check(return_code, output)`: branch on which field is
set, `return_code` first, else `contains`, else `False`. -/
def TestCondition.check (c : TestCondition) (return_code : Int) (output : String) : Bool :=
  if c.return_code.isSome then
    c.check_return_code return_code
  else if c.contains.isSome then
    c.check_contains output
  else
    false

/-- `TestCondition.error(return_code, output)`: the human-readable
diagnostic, mirroring the branch selection of `check`. -/
def TestCondition.error (c : TestCondition) (return_code : Int) (output : String) : String :=
  match c.return_code with
  | some r => "Return code " ++ toString return_code ++ " != " ++ toString r
  | none =>
    match c.contains with
    | some s => "Output does not contain " ++ s
    | none => "<unknown>"

/-- `Test`: identity, command, optional input, expected polarity and the
two ordered condition batteries, with the source's `__init__` defaults. -/
structure Test where
  id : String := "<unknown>"
  description : String := ""
  command : String
  input : Option String := none
  pass_conditions : List TestCondition := []
  fail_conditions : List TestCondition := []
  expected : Bool := true
  deriving Repr

/-- The acceptance battery loop of `Test.execute`: for each condition in
order, if `check` is false the running `passed` flag becomes `False`, and
when `expected` is true the condition's diagnostic is printed.  Returns
the battery's contribution to `passed` and the printed diagnostics. -/
def runPassConditions (expected : Bool) (return_code : Int) (output : String) :
    List TestCondition → Bool × List String
  | [] => (true, [])
  | c :: cs =>
    let rest := runPassConditions expected return_code output cs
    if ! c.check return_code output then
      (false, (if expected then [c.error return_code output] else []) ++ rest.2)
    else
      (rest.1, rest.2)

/-- The failure battery loop of `Test.execute`: for each condition in
order, if `check` is true the running `passed` flag becomes `False`;
otherwise (`elif`), when `expected` is false the condition's diagnostic
is printed. -/
def runFailConditions (expected : Bool) (return_code : Int) (output : String) :
    List TestCondition → Bool × List String
  | [] => (true, [])
  | c :: cs =>
    let rest := runFailConditions expected return_code output cs
    if c.check return_code output then
      (false, rest.2)
    else
      (rest.1, (if ! expected then [c.error return_code output] else []) ++ rest.2)

/-- `Test.execute`: the command has already run (the executor is the
external collaborator), yielding `return_code` and captured `output`.
Both batteries run in full; the verdict is `passed == self.expected`.
Returns the verdict together with the `FAILED:` diagnostics printed. -/
def Test.execute (t : Test) (return_code : Int) (output : String) : Bool × List String :=
  let p := runPassConditions t.expected return_code output t.pass_conditions
  let f := runFailConditions t.expected return_code output t.fail_conditions
  ((p.1 && f.1) == t.expected, p.2 ++ f.2)

/-- `TestScript`: metadata and the ordered sequence of tests. -/
structure TestScript where
  title : String := "<unknown>"
  author : String := "<unknown>"
  tests : List Test := []

/-- Result of a script run: the failure count returned by
`TestScript.execute` and the aggregate summary line it prints. -/
structure ScriptResult where
  numFailures : Nat
  summary : String
  deriving Repr, DecidableEq

/-- `TestScript.execute`: iterate the tests in document order, counting
the tests whose verdict is false, then print the aggregate summary line
and return the failure count.  `env` supplies each test's command result
(exit code and captured output) from the external command executor. -/
def TestScript.execute (s : TestScript) (env : Test → Int × String) : ScriptResult :=
  let numFailures := s.tests.foldl
    (fun numFailures test =>
      let r := env test
      if (test.execute r.1 r.2).1 then numFailures else numFailures + 1) 0
  { numFailures := numFailures
    summary := if numFailures > 0 then "Some tests failed." else "All tests passed." }

/-! ## XML loader: condition parsing (`parse_xml_conditions`)

A small model of `xml.etree.ElementTree` elements, enough for the
condition-parsing code: a tag, optional text content, and child elements
in document order. -/

/-- An XML element as seen by `parse_xml_conditions`. -/
inductive XmlElement where
  | mk (tag : String) (text : Option String) (children : List XmlElement)
  deriving Repr

def XmlElement.tag : XmlElement → String
  | .mk tag _ _ => tag

def XmlElement.text : XmlElement → Option String
  | .mk _ text _ => text

def XmlElement.children : XmlElement → List XmlElement
  | .mk _ _ children => children

/-- `Element.find(tag)`: the first direct child with the given tag,
or `None`. -/
def XmlElement.find (e : XmlElement) (tag : String) : Option XmlElement :=
  e.children.find? (fun c => c.tag == tag)

/-- Python runtime errors the condition-parsing code can raise.
`nameError` models evaluating a name that is bound in no scope;
`attributeError` models reading a missing attribute; `valueError`
models `int()` on a non-numeric string; `syntaxError` is raised by
the code itself. -/
inductive PyError where
  | nameError (name : String)
  | attributeError (name : String)
  | valueError (text : String)
  | syntaxError (msg : String)
  deriving Repr, DecidableEq

/-- The loop body of `parse_xml_conditions` over the children of the
condition block, in order.  For a child with no text the source calls
`error('Empty condition block in {}, skipping...'.format(test.id))`
intending to log and `continue`; but the name `test` is bound in no
scope of `parse_xml_conditions` (it is a local of `parse_xml_test`),
so evaluating `test.id` raises `NameError` instead.  A `returncode`
child goes through the `return_code` setter, whose `int(value)` raises
`ValueError` on non-numeric text (modelled by `String.toInt?`); an
unrecognized tag evaluates `condition.tag`, which `TestCondition` does
not have, raising `AttributeError`. -/
def parseXmlConditionChildren : List XmlElement → Except PyError (List TestCondition)
  | [] => .ok []
  | c :: cs =>
    match c.text with
    | none => .error (.nameError "test")
    | some txt =>
      if c.tag == "returncode" then
        match txt.toInt? with
        | none => .error (.valueError txt)
        | some n => do
          let rest ← parseXmlConditionChildren cs
          .ok ({ return_code := some n } :: rest)
      else if c.tag == "contains" then do
        let rest ← parseXmlConditionChildren cs
        .ok ({ contains := some txt } :: rest)
      else
        .error (.attributeError "tag")

/-- `parse_xml_conditions(t, tag)`: find the condition block child of
the test element; when it is absent the generator yields nothing; else
parse its children in order.  The generator is fully drained by
`list.extend(...)` in `parse_xml_test`, so errors raised lazily during
iteration surface there; the `Except` makes them explicit. -/
def parse_xml_conditions (t : XmlElement) (tag : String) :
    Except PyError (List TestCondition) :=
  match t.find tag with
  | none => .ok []
  | some conds => parseXmlConditionChildren conds.children

/-! ## The `Popen` call site in `Test.execute`

The command executor is `subprocess.Popen`; the engine's call is
`Popen([self.command], shell=True, stdout=PIPE, stdin=PIPE,
universal_newlines=True)` followed by `output = p.communicate(input)[0]`.
We model the keyword arguments of that call and the stdlib rule for
which streams end up in `communicate()[0]`. -/

/-- Where a standard stream of the child is directed: inherited from the
parent (the `Popen` default, `None`), a new pipe (`PIPE`), or merged
into the child's standard output (`STDOUT`, only meaningful for
`stderr`). -/
inductive StdTarget where
  | inherit
  | pipe
  | mergedToStdout
  deriving Repr, DecidableEq

/-- The keyword arguments of a `Popen` call that decide stream routing.
Every field defaults to the stdlib default. -/
structure PopenArgs where
  shell : Bool := false
  stdout_target : StdTarget := .inherit
  stdin_target : StdTarget := .inherit
  stderr_target : StdTarget := .inherit
  universal_newlines : Bool := false
  deriving Repr, DecidableEq

/-- The arguments of the `Popen` call in `Test.execute`: `shell=True`,
`stdout=PIPE`, `stdin=PIPE`, `universal_newlines=True`, and no `stderr`
argument, so `stderr` keeps its default. -/
def testExecutePopenArgs : PopenArgs :=
  { shell := true
    stdout_target := .pipe
    stdin_target := .pipe
    universal_newlines := true }

/-- Stdlib rule: the text returned as `communicate()[0]` is the child's
standard output stream, and the child's standard error appears in it
exactly when the call passed `stderr=STDOUT`. -/
def outputIncludesStderr (a : PopenArgs) : Bool :=
  a.stderr_target == StdTarget.mergedToStdout

/-! ## Battery lemmas -/

/-- The acceptance battery's contribution to `passed` is `true` iff every
pass-condition's `check` holds. -/
theorem runPassConditions_fst (e : Bool) (rc : Int) (out : String)
    (l : List TestCondition) :
    (runPassConditions e rc out l).1 = l.all (fun c => c.check rc out) := by
  induction l with
  | nil => rfl
  | cons c cs ih =>
    simp only [runPassConditions, List.all_cons]
    by_cases h : c.check rc out = true
    · simp [h, ih]
    · simp [h]

/-- The failure battery's contribution to `passed` is `true` iff no
fail-condition's `check` holds. -/
theorem runFailConditions_fst (e : Bool) (rc : Int) (out : String)
    (l : List TestCondition) :
    (runFailConditions e rc out l).1 = l.all (fun c => ! c.check rc out) := by
  induction l with
  | nil => rfl
  | cons c cs ih =>
    simp only [runFailConditions, List.all_cons]
    by_cases h : c.check rc out = true
    · simp [h]
    · simp [h, ih]

/-- With `expected = false` the acceptance battery prints nothing. -/
theorem runPassConditions_snd_false (rc : Int) (out : String)
    (l : List TestCondition) :
    (runPassConditions false rc out l).2 = [] := by
  induction l with
  | nil => rfl
  | cons c cs ih =>
    simp only [runPassConditions]
    by_cases h : c.check rc out = true
    · simp [h, ih]
    · simp [h, ih]

/-- With `expected = true` the failure battery prints nothing. -/
theorem runFailConditions_snd_true (rc : Int) (out : String)
    (l : List TestCondition) :
    (runFailConditions true rc out l).2 = [] := by
  induction l with
  | nil => rfl
  | cons c cs ih =>
    simp only [runFailConditions]
    by_cases h : c.check rc out = true
    · simp [h, ih]
    · simp [h, ih]

/-- With `expected = false` the failure battery prints the diagnostics of
exactly those fail-conditions whose `check` is false, in order. -/
theorem runFailConditions_snd_false (rc : Int) (out : String)
    (l : List TestCondition) :
    (runFailConditions false rc out l).2 =
      (l.filter (fun c => ! c.check rc out)).map (fun c => c.error rc out) := by
  induction l with
  | nil => rfl
  | cons c cs ih =>
    simp only [runFailConditions, List.filter_cons]
    by_cases h : c.check rc out = true
    · simp [h, ih]
    · simp [h, ih]

/-! ## Claim theorems -/

/-- C1: `Test.execute` returns `true` exactly when the conjunction
"every pass-condition's `check` holds and no fail-condition's `check`
holds" equals the test's `expected` flag: with `expected = true` the
verdict is true iff every pass-condition holds and no fail-condition
holds; with `expected = false` the verdict is true iff some
pass-condition fails to hold or some fail-condition holds. -/
theorem Test.execute_verdict_iff (t : Test) (return_code : Int) (output : String) :
    (t.execute return_code output).1 = true ↔
      (((∀ c ∈ t.pass_conditions, c.check return_code output = true) ∧
        (∀ c ∈ t.fail_conditions, c.check return_code output = false)) ↔
        t.expected = true) := by
  have hpf : ((runPassConditions t.expected return_code output t.pass_conditions).1 &&
      (runFailConditions t.expected return_code output t.fail_conditions).1) = true ↔
      ((∀ c ∈ t.pass_conditions, c.check return_code output = true) ∧
        (∀ c ∈ t.fail_conditions, c.check return_code output = false)) := by
    simp [runPassConditions_fst, runFailConditions_fst, List.all_eq_true,
      Bool.not_eq_true']
  simp only [Test.execute]
  rw [← hpf]
  generalize ((runPassConditions t.expected return_code output t.pass_conditions).1 &&
      (runFailConditions t.expected return_code output t.fail_conditions).1) = b
  cases b <;> cases hE : t.expected <;> simp

/-- Scenario C of the spec: a command exiting `2`, one fail-condition
`returncode = 2`, `expected = false`. -/
def scenarioCTest : Test :=
  { command := "exit 2"
    expected := false
    fail_conditions := [{ return_code := some 2 }] }

/-- C2 counterexample: in scenario C the fail-condition's `check` is
true and the verdict is true, but no diagnostic at all is emitted — the
source prints the fail-condition's diagnostic in the `elif` branch, i.e.
only when `check` is false, so a triggering fail-condition never has its
diagnostic printed. -/
theorem scenarioCTest_no_diagnostic :
    TestCondition.check { return_code := some 2 } 2 "" = true ∧
    scenarioCTest.execute 2 "" = (true, []) := by
  exact ⟨rfl, rfl⟩

/-- C2 amended: for a Test with `expected = false`, a fail-condition
whose `check` is true sets the running `passed` flag to false but emits
no diagnostic; the diagnostics emitted are exactly those of the
fail-conditions whose `check` is false (the pass battery emits nothing
in fail-expected mode).  In scenario C the verdict is true and nothing
is printed. -/
theorem Test.execute_fail_battery_expected_false (t : Test) (rc : Int)
    (out : String) (h : t.expected = false) :
    ((∃ c ∈ t.fail_conditions, c.check rc out = true) →
      (runFailConditions t.expected rc out t.fail_conditions).1 = false) ∧
    (t.execute rc out).2 =
      (t.fail_conditions.filter (fun c => ! c.check rc out)).map
        (fun c => c.error rc out) := by
  constructor
  · rintro ⟨c, hc, hcheck⟩
    rw [runFailConditions_fst]
    by_contra hne
    have hall : t.fail_conditions.all (fun c => ! c.check rc out) = true := by
      cases hb : t.fail_conditions.all (fun c => ! c.check rc out)
      · exact absurd hb hne
      · rfl
    rw [List.all_eq_true] at hall
    have hcon := hall c hc
    rw [hcheck] at hcon
    simp at hcon
  · simp [Test.execute, h, runPassConditions_snd_false, runFailConditions_snd_false]

/-- C2 witness: the amended statement instantiated at scenario C. -/
theorem Test.execute_fail_battery_expected_false_witness :
    scenarioCTest.expected = false ∧
    (((∃ c ∈ scenarioCTest.fail_conditions, c.check 2 "" = true) →
      (runFailConditions scenarioCTest.expected 2 ""
        scenarioCTest.fail_conditions).1 = false) ∧
    (scenarioCTest.execute 2 "").2 =
      (scenarioCTest.fail_conditions.filter (fun c => ! c.check 2 "")).map
        (fun c => c.error 2 "")) :=
  ⟨rfl, Test.execute_fail_battery_expected_false scenarioCTest 2 "" rfl⟩

/-- C3: for a Test with both condition batteries empty, `passed` stays
true, so the verdict `passed == expected` equals `expected`: true when
`expected = true`, false when `expected = false`. -/
theorem Test.execute_empty_batteries_verdict (t : Test) (rc : Int) (out : String)
    (hp : t.pass_conditions = []) (hf : t.fail_conditions = []) :
    (t.execute rc out).1 = t.expected := by
  cases hE : t.expected <;>
    simp [Test.execute, hp, hf, hE, runPassConditions, runFailConditions]

/-- A setup-only test: no conditions, default `expected = true`. -/
def setupOnlyTest : Test := { command := "mkdir fixtures" }

/-- C3 witness: the empty-battery verdict at a concrete test. -/
theorem Test.execute_empty_batteries_verdict_witness :
    setupOnlyTest.pass_conditions = [] ∧ setupOnlyTest.fail_conditions = [] ∧
    (setupOnlyTest.execute 0 "").1 = setupOnlyTest.expected :=
  ⟨rfl, rfl, Test.execute_empty_batteries_verdict setupOnlyTest 0 "" rfl rfl⟩

/-- An expected-to-fail test with no conditions at all. -/
def emptyFailExpectedTest : Test := { command := "true", expected := false }

/-- C4 counterexample: a Test with both batteries empty and
`expected = false` does not pass trivially — `Test.execute` returns
false, because the verdict is `passed == expected` with `passed` stuck
at true. -/
theorem emptyFailExpectedTest_fails :
    emptyFailExpectedTest.pass_conditions = [] ∧
    emptyFailExpectedTest.fail_conditions = [] ∧
    (emptyFailExpectedTest.execute 0 "").1 = false := ⟨rfl, rfl, rfl⟩

/-- C4 amended: a Test with both condition batteries empty passes
trivially only when `expected = true`: then `Test.execute` returns true
regardless of the command's exit code and output. -/
theorem Test.execute_empty_batteries_trivially_pass (t : Test) (rc : Int)
    (out : String) (hp : t.pass_conditions = []) (hf : t.fail_conditions = [])
    (he : t.expected = true) :
    (t.execute rc out).1 = true := by
  simp [Test.execute, hp, hf, he, runPassConditions, runFailConditions]

/-- A second setup-only test used to instantiate the amended C4. -/
def teardownOnlyTest : Test := { command := "rm -r fixtures" }

/-- C4 witness: the amended trivial-pass statement at a concrete test
with a nonzero exit code and nonempty output. -/
theorem Test.execute_empty_batteries_trivially_pass_witness :
    teardownOnlyTest.pass_conditions = [] ∧
    teardownOnlyTest.fail_conditions = [] ∧
    teardownOnlyTest.expected = true ∧
    (teardownOnlyTest.execute 7 "noise").1 = true :=
  ⟨rfl, rfl, rfl,
    Test.execute_empty_batteries_trivially_pass teardownOnlyTest 7 "noise" rfl rfl rfl⟩

/-- The failure-counting loop of `TestScript.execute`: starting the
accumulator at `a`, the loop adds one per test whose verdict is false. -/
theorem foldl_numFailures (env : Test → Int × String) (l : List Test) (a : Nat) :
    l.foldl (fun numFailures test =>
        let r := env test
        if (test.execute r.1 r.2).1 then numFailures else numFailures + 1) a =
      a + l.countP (fun t => ! (t.execute (env t).1 (env t).2).1) := by
  induction l generalizing a with
  | nil => simp
  | cons t ts ih =>
    simp only [List.foldl_cons, List.countP_cons, ih]
    by_cases h : (t.execute (env t).1 (env t).2).1 = true
    · simp [h]
    · simp only [Bool.not_eq_true] at h
      simp [h]
      omega

/-- The summary line chosen by comparing the failure count with zero,
written either way around. -/
theorem summaryLine_flip (n : Nat) :
    (if n > 0 then "Some tests failed." else "All tests passed.") =
      if n = 0 then "All tests passed." else "Some tests failed." := by
  rcases Nat.eq_zero_or_pos n with h | h
  · simp [h]
  · simp [h, Nat.pos_iff_ne_zero.mp h]

/-- C5: a script run returns exactly the number of tests whose verdict
was false, and the aggregate summary line is "All tests passed." when
that count is zero and "Some tests failed." when it is positive. -/
theorem TestScript.execute_failure_count (s : TestScript)
    (env : Test → Int × String) :
    (s.execute env).numFailures =
      s.tests.countP (fun t => ! (t.execute (env t).1 (env t).2).1) ∧
    (s.execute env).summary =
      (if (s.execute env).numFailures = 0 then "All tests passed."
        else "Some tests failed.") := by
  constructor
  · simp only [TestScript.execute, foldl_numFailures]
    omega
  · simp only [TestScript.execute]
    exact summaryLine_flip _

/-- A condition with `contains` set to `"ell"`. -/
def ellCondition : TestCondition := { contains := some "ell" }

/-- C6: for a Condition with `contains = S` and `return_code` unset,
`check` is true for any exit code iff `S` occurs as a literal,
case-sensitive, contiguous substring of the output; the empty string is
contained in every output. -/
theorem TestCondition.check_contains_iff (c : TestCondition) (S : String)
    (rc : Int) (out : String) (hc : c.contains = some S)
    (hr : c.return_code = none) :
    (c.check rc out = true ↔ List.IsInfix S.data out.data) ∧
    (S = "" → c.check rc out = true) := by
  have hcheck : c.check rc out = strContains out S := by
    simp [TestCondition.check, hr, hc, TestCondition.check_contains]
  constructor
  · rw [hcheck]
    simp [strContains]
  · intro hS
    rw [hcheck, hS]
    simp only [strContains, decide_eq_true_eq]
    exact List.nil_infix

/-- C6 witness: `contains = "ell"` against output `"hello"`. -/
theorem TestCondition.check_contains_iff_witness :
    ellCondition.contains = some "ell" ∧ ellCondition.return_code = none ∧
    ((ellCondition.check 0 "hello" = true ↔
        List.IsInfix ("ell".data) ("hello".data)) ∧
      ("ell" = "" → ellCondition.check 0 "hello" = true)) ∧
    ellCondition.check 0 "hello" = true :=
  ⟨rfl, rfl, TestCondition.check_contains_iff ellCondition "ell" 0 "hello" rfl rfl,
    by decide⟩

/-- A condition with neither `return_code` nor `contains` set. -/
def noFieldCondition : TestCondition := {}

/-- A condition with both fields set, as C7's precedence clause
contemplates. -/
def bothFieldsCondition : TestCondition :=
  { return_code := some 2, contains := some "x" }

/-- C7: a Condition with neither field set always checks false; a
Condition whose `return_code` is set is decided solely by the exit-code
comparison, whatever `contains` holds — the `contains` branch is behind
the `return_code is not None` test and is never reached. -/
theorem TestCondition.check_neither_and_priority (c : TestCondition) (rc : Int)
    (out : String) :
    (c.return_code = none → c.contains = none → c.check rc out = false) ∧
    (∀ r, c.return_code = some r → c.check rc out = (r == rc)) := by
  constructor
  · intro hr hc
    simp [TestCondition.check, hr, hc]
  · intro r hr
    simp [TestCondition.check, hr, TestCondition.check_return_code]

/-- C7 witness: the empty condition checks false; a condition with
`return_code = 2` and `contains = "x"` checks true on exit code `2` and
output `""` even though `""` does not contain `"x"`. -/
theorem TestCondition.check_neither_and_priority_witness :
    (noFieldCondition.check 0 "x" = false) ∧
    (bothFieldsCondition.check 2 "" = true) :=
  ⟨(TestCondition.check_neither_and_priority noFieldCondition 0 "x").1 rfl rfl,
    by
      have h :=
        (TestCondition.check_neither_and_priority bothFieldsCondition 2 "").2 2 rfl
      simpa using h⟩

/-- A `test` element whose `pass` block holds one textless child
`<returncode/>`. -/
def emptyChildTestElement : XmlElement :=
  .mk "test" none [.mk "pass" none [.mk "returncode" none []]]

/-- C8: on a condition block with a textless child the loader does not
log and skip — formatting the log message evaluates `test.id` with the
name `test` unbound in `parse_xml_conditions`, so the load aborts with a
`NameError` instead of succeeding. -/
theorem parse_xml_conditions_empty_child_aborts :
    parse_xml_conditions emptyChildTestElement "pass" =
      Except.error (PyError.nameError "test") := rfl

/-- C9: the `Popen` call in `Test.execute` passes no `stderr` argument,
so the child's standard error keeps the inherited default and is never
merged into the captured output — a `contains` condition cannot match
text the command wrote to standard error. -/
theorem testExecutePopenArgs_stderr_not_merged :
    outputIncludesStderr testExecutePopenArgs = false ∧
    testExecutePopenArgs.stderr_target = StdTarget.inherit := ⟨rfl, rfl⟩

/-- C10: for a Condition with neither `return_code` nor `contains` set,
`error` returns the literal string `"<unknown>"` for every exit code and
output. -/
theorem TestCondition.error_neither_unknown (c : TestCondition) (rc : Int)
    (out : String) (hr : c.return_code = none) (hc : c.contains = none) :
    c.error rc out = "<unknown>" := by
  simp [TestCondition.error, hr, hc]

/-- C10 witness: the empty condition's diagnostic at a concrete result. -/
theorem TestCondition.error_neither_unknown_witness :
    noFieldCondition.return_code = none ∧ noFieldCondition.contains = none ∧
    noFieldCondition.error 5 "output text" = "<unknown>" :=
  ⟨rfl, rfl, TestCondition.error_neither_unknown noFieldCondition 5 "output text" rfl rfl⟩
